import Mathlib

/-!
Verification of the `api-cf` request-routing gateway (Cloudflare Worker sources).

The development shallowly embeds the two main worker variants:

* `src/unnamed/part_001` — the unified v9.0 gateway (dual-mode routing,
  content-based caching, D1-backed key rotation); embedded in namespace `P1`.
* `src/cfapi/_worker.js` — two workers: the rotation worker (fetch gate +
  `handleRequestWithRotation` + `getNextKeyIndex`) and the cached worker
  (`generateCacheKey`, `isRequestCacheable`); embedded in namespace `CF`.

External collaborators (the HTTP transport, the Workers cache, the D1 counter
store, `crypto.subtle.digest`, `JSON.stringify` of the opaque parsed body) are
passed in as explicit values or functions, exactly at the points the source
awaits them.  JavaScript truthiness on strings, `||` vs `??` fallbacks, the
truncating `%` of JS/SQLite, and the case-insensitivity of the `Headers` API
are all modelled explicitly.
-/

deriving instance DecidableEq for Except

namespace Gateway

/-- Character-list prefix test (Boolean, executable). -/
def chStarts : List Char → List Char → Bool
  | [], _ => true
  | _ :: _, [] => false
  | a :: as, b :: bs => a = b && chStarts as bs

/-- Character-list infix test (Boolean, executable). -/
def chHas (needle : List Char) : List Char → Bool
  | [] => chStarts needle []
  | c :: rest => chStarts needle (c :: rest) || chHas needle rest

/-- `containsSubstr s sub` models JavaScript `s.includes(sub)`. -/
def containsSubstr (s sub : String) : Bool :=
  chHas sub.data s.data

/-- `s.toLowerCase()` (ASCII case mapping, as all compared tokens are ASCII). -/
def toLowerStr (s : String) : String :=
  String.mk (s.data.map Char.toLower)

/-- `s.toUpperCase()` (ASCII case mapping). -/
def toUpperStr (s : String) : String :=
  String.mk (s.data.map Char.toUpper)

/-- `s.startsWith(pre)`. -/
def strStarts (s pre : String) : Bool :=
  chStarts pre.data s.data

/-- `s.substring(n)` (all dropped tokens here are ASCII). -/
def strDrop (s : String) (n : Nat) : String :=
  String.mk (s.data.drop n)

/-- Split a character list at a separator, keeping empty pieces (JS
`s.split(sep)` for a single-character separator). -/
def chSplitAux (sep : Char) : List Char → List Char → List String
  | [], acc => [String.mk acc.reverse]
  | c :: cs, acc =>
    if c = sep then String.mk acc.reverse :: chSplitAux sep cs []
    else chSplitAux sep cs (c :: acc)

/-- JS `s.split('/')`. -/
def splitOnSlash (s : String) : List String :=
  chSplitAux '/' s.data []

/-- JS `parts.join('/')` (also used for `parts.slice(1).join('/')`). -/
def joinSlash : List String → String
  | [] => ""
  | [a] => a
  | a :: b :: t => a ++ "/" ++ joinSlash (b :: t)

/-- JS truthiness of a nullable string: `null`/`undefined` and `""` are falsy. -/
def truthy : Option String → Bool
  | none => false
  | some s => s ≠ ""

/-- JS `x || null` on a nullable string: coerces the empty string to null. -/
def jsOrNull : Option String → Option String
  | some s => if s = "" then none else some s
  | none => none

/-- JS `row || d` on a nullable integer: `0`, `null` and `undefined` all fall
back to the default (this is the `||` used by `CF.getNextKeyIndex`). -/
def jsOrInt (row : Option Int) (d : Int) : Int :=
  match row with
  | none => d
  | some v => if v = 0 then d else v

/-- JS `row ?? d` on a nullable integer: only `null`/`undefined` fall back
(this is the `??` used by `P1.getRotatingKeyFromD1`). -/
def jsCoalesceInt (row : Option Int) (d : Int) : Int :=
  row.getD d

/-- `url.pathname.split('/').filter(Boolean)` from the workers. -/
def splitPath (p : String) : List String :=
  (splitOnSlash p).filter (fun s => s ≠ "")

/-- Association-list lookup modelling `ROUTE_MAP[key]` (no inherited keys). -/
def routeLookup (m : List (String × String)) (k : String) : Option String :=
  (m.find? (fun p => p.1 = k)).map (·.2)

/-- The shared `ROUTE_MAP` of `part_001` and `cfapi/_worker.js`. -/
def ROUTE_MAP : List (String × String) :=
  [("cerebras", "api.cerebras.ai"),
   ("claude", "api.anthropic.com"),
   ("gemini", "generativelanguage.googleapis.com"),
   ("groq", "api.groq.com"),
   ("openai", "api.openai.com")]

def CACHE_TTL_SECONDS : Nat := 30 * 60

def NON_CACHEABLE_PATHS : List String := ["/v1/images/generations"]

def NON_CACHEABLE_MODELS : List String := ["dall-e", "vision", "image"]

/-- Case-insensitive header list, modelling the `Headers` API. -/
abbrev Hdrs := List (String × String)

/-- `headers.get(name)` (first match, case-insensitive names). -/
def hGet : Hdrs → String → Option String
  | [], _ => none
  | p :: t, name => if toLowerStr p.1 = toLowerStr name then some p.2 else hGet t name

/-- `headers.set(name, v)`: replaces any entry with that (case-insensitive)
name.  The position of the entry is not observable through `hGet`. -/
def hSet (hs : Hdrs) (name v : String) : Hdrs :=
  (List.filter (fun p => ¬ toLowerStr p.1 = toLowerStr name) hs) ++ [(name, v)]

/-- `headers.delete(name)`. -/
def hDelete (hs : Hdrs) (name : String) : Hdrs :=
  List.filter (fun p => ¬ toLowerStr p.1 = toLowerStr name) hs

/-- The parsed JSON request body: the `model` field the gateway reads and
rewrites, plus an opaque remainder standing for all other fields. -/
structure BodyJson where
  model : Option String
  rest : String
  deriving DecidableEq, Repr

/-- An inbound request, as far as the workers inspect it.  `url` is the full
`request.url` string; `pathname` and `queryKey` are the parts of `new
URL(request.url)` the code reads; `bodyText` is `await request.clone().text()`;
`bodyJson` is the result of `await request.clone().json()` (`none` when the
body is not valid JSON). -/
structure Req where
  url : String
  pathname : String
  method : String
  headers : Hdrs
  queryKey : Option String
  bodyText : String
  bodyJson : Option BodyJson

/-- A response, as far as the claims inspect it (status and body text). -/
structure Resp where
  status : Nat
  body : String
  deriving DecidableEq, Repr

/-- `response.ok`: status in the 2xx range. -/
def respOk (r : Resp) : Bool :=
  200 ≤ r.status && r.status < 300

/-- A thrown `ErrorResponse(message, status)` (or a generic thrown `Error`,
whose status defaults to 500 at the catch site). -/
structure ErrR where
  message : String
  status : Nat
  deriving DecidableEq, Repr

/-- A per-service pool secret after `JSON.parse`: a parsed string array, a
parsed non-array value, or text that makes `JSON.parse` throw. -/
inductive SecretVal where
  | arr (keys : List String)
  | notArray
  | malformed
  deriving DecidableEq, Repr

/-- `` `${service.toUpperCase()}_KEYS` `` -/
def secretName (service : String) : String :=
  toUpperStr service ++ "_KEYS"

/-- One D1 `INSERT ... ON CONFLICT ... RETURNING next_index` step for a pool of
size `N`, on the stored row (`none` = no row yet for this service): inserts
`1`, or updates to `(next_index + 1) % N` (SQLite `%` truncates like `Int.tmod`).
Returns the value of `RETURNING next_index` and the new stored row. -/
def d1Step (N : Int) (st : Option Int) : Int × Option Int :=
  match st with
  | none => (1, some 1)
  | some v =>
    let nv := Int.tmod (v + 1) N
    (nv, some nv)

/-- The raw `next_index` values observed over `n` consecutive D1 rotation
calls for one service, starting from an empty table. -/
def d1RawSeq (N : Int) (n : Nat) : List Int :=
  (go n none).1
where
  go : Nat → Option Int → List Int × Option Int
    | 0, st => ([], st)
    | Nat.succ k, st =>
      let (raw, st2) := d1Step N st
      let (rest, st3) := go k st2
      (raw :: rest, st3)

namespace P1

/-- `getApiKey(request)` from `part_001`: `Authorization: Bearer` token, else
the `x-goog-api-key` header, else the `key` query parameter, else null. -/
def getApiKey (req : Req) : Option String :=
  let authHeader := hGet req.headers "Authorization"
  if truthy authHeader && strStarts (authHeader.getD "") "Bearer " then
    some (strDrop (authHeader.getD "") 7)
  else
    let googHeader := hGet req.headers "x-goog-api-key"
    if truthy googHeader then googHeader
    else req.queryKey

/-- `isRequestCacheable(request, model)` from `part_001` (the cfapi cached
worker has the same logic written with `for` loops, see `CF.isRequestCacheable`). -/
def isRequestCacheable (method pathname model : String) : Bool :=
  if method ≠ "POST" then false
  else if NON_CACHEABLE_PATHS.any (fun p => containsSubstr pathname p) then false
  else if NON_CACHEABLE_MODELS.any (fun kw => containsSubstr (toLowerStr model) kw) then false
  else true

/-- `b.toString(16).padStart(2, '0')` for one digest byte. -/
def byteHex (b : Nat) : String :=
  let s := String.mk (Nat.toDigits 16 b)
  if s.length < 2 then "0" ++ s else s

/-- `Array.from(new Uint8Array(digest)).map(b => ...).join('')`. -/
def hexOfBytes (bs : List Nat) : String :=
  String.join (bs.map byteHex)

/-- The string hashed by `generateContentBasedCacheKey`:
`request.url + request.method + body`, where `body` is `bodyOverride` when
that is truthy and `await request.clone().text()` otherwise. -/
def cacheKeyMaterial (req : Req) (bodyOverride : Option String) : String :=
  let body :=
    match bodyOverride with
    | some b => if b = "" then req.bodyText else b
    | none => req.bodyText
  req.url ++ req.method ++ body

/-- `generateContentBasedCacheKey(request, bodyOverride)` from `part_001`.
`digest` stands for the external `crypto.subtle.digest('SHA-256', ·)` as a
byte-list valued function of the hashed string.  The returned key is the URL
of the synthetic cache `Request` the function builds. -/
def generateContentBasedCacheKey (digest : String → List Nat) (req : Req)
    (bodyOverride : Option String) : String :=
  "https://cache.internal/" ++ hexOfBytes (digest (cacheKeyMaterial req bodyOverride))

/-- The index arithmetic of `getRotatingKeyFromD1`: raw `next_index` row value
(`?? 1` fallback) mapped by `(nextIndexRaw - 1 + keys.length) % keys.length`
(JS `%` truncates like `Int.tmod`). -/
def rotOffset (N : Int) (row : Option Int) : Int :=
  let nextIndexRaw := jsCoalesceInt row 1
  Int.tmod (nextIndexRaw - 1 + N) N

/-- `getRotatingKeyFromD1(service, env)` from `part_001`.  `secret` is
`env[secretName]` after `JSON.parse` (`none` when the env var is absent or
empty, `malformed` when parsing throws — that exception propagates with a
default 500 status); `storeRows` is the awaited D1 statement result: an error,
or `results[0]?.next_index`.  The `.ok` value is `keys[currentIndex]`
(`none` would be JS `undefined`, for an out-of-range index). -/
def getRotatingKeyFromD1 (service : String) (secret : Option SecretVal)
    (storeRows : Except String (Option Int)) : Except ErrR (Option String) :=
  match secret with
  | none =>
    .error ⟨"Rotation failed: Secret " ++ secretName service ++ " not found.", 500⟩
  | some .malformed =>
    .error ⟨"Unexpected token in JSON", 500⟩
  | some .notArray =>
    .error ⟨"Rotation failed: Secret " ++ secretName service ++ " is not a valid array.", 500⟩
  | some (.arr keys) =>
    if keys.length = 0 then
      .error ⟨"Rotation failed: Secret " ++ secretName service ++ " is not a valid array.", 500⟩
    else
      match storeRows with
      | .error e => .error ⟨"D1 Database Error: " ++ e, 500⟩
      | .ok row => .ok (keys.get? (rotOffset keys.length row).toNat)

/-- The request context produced by the dual-mode routing block of `fetch`
(`part_001` lines 46–74): resolved service, the `logModel` used for the
cacheability check, the mode flag, and the (rewritten) parsed body. -/
structure RouteCtx where
  service : String
  logModel : String
  isIntelligent : Bool
  requestBody : BodyJson
  deriving DecidableEq, Repr

/-- `JSON.stringify({error:{message}})` (escaping of the message abstracted). -/
def jsonError (msg : String) : String :=
  "\x7b\"error\":\x7b\"message\":\"" ++ msg ++ "\"\x7d\x7d"

/-- The dual-mode routing block of `part_001`'s `fetch` (lines 46–74).
Intelligent mode triggers on the `/v1/chat/completions` path and requires the
incoming credential (JS-truthy and strictly equal) to match `MASTER_KEY`;
transparent mode never fails. -/
def part001Route (masterKey : Option String) (incoming : Option String)
    (req : Req) : Except ErrR RouteCtx :=
  if strStarts req.pathname "/v1/chat/completions" then
    if ¬ (truthy incoming && incoming == masterKey) then
      .error ⟨"This endpoint requires a valid Master Key.", 401⟩
    else
      match req.bodyJson with
      | none => .error ⟨"Unexpected end of JSON input", 500⟩
      | some bj =>
        let model := match bj.model with
          | none => ""
          | some m => m
        let modelParts := splitOnSlash model
        if modelParts.length < 2 ∨ (routeLookup ROUTE_MAP (modelParts.headD "")).isNone then
          .error ⟨"Invalid model format. Expected \x27provider/model_name\x27, received: \x27"
                    ++ model ++ "\x27", 400⟩
        else
          let service := modelParts.headD ""
          let logModel := joinSlash modelParts.tail
          .ok ⟨service, logModel, true, { bj with model := some logModel }⟩
  else
    let service := match splitPath req.pathname with
      | [] => "unknown"
      | s :: _ => s
    let model := match req.bodyJson with
      | none => "unknown"
      | some bj => match bj.model with
        | none => "unknown"
        | some m => if m = "" then "unknown" else m
    .ok ⟨service, model, false, ⟨none, ""⟩⟩

/-- The key-rotation guard of `part_001`'s `fetch` (line 77):
`env.MASTER_KEY && env.DB && incomingApiKey === env.MASTER_KEY`. -/
def rotationActive (masterKey : Option String) (dbConfigured : Bool)
    (incoming : Option String) : Bool :=
  match masterKey with
  | none => false
  | some mk => mk ≠ "" && dbConfigured && incoming == some mk

/-- The environment bindings of the `part_001` worker. -/
structure Env where
  masterKey : Option String
  dbConfigured : Bool
  secrets : String → Option SecretVal

/-- The external collaborators awaited by one `part_001` request: the D1
rotation row, the cache lookup, the upstream response, `JSON.stringify` on the
parsed body object, and the SHA-256 digest. -/
structure Ext where
  storeRows : Except String (Option Int)
  cacheLookup : String → Option Resp
  upstream : Resp
  stringify : BodyJson → String
  digest : String → List Nat

/-- Lines 76–79 of `part_001`'s `fetch`: compute `overrideApiKey` (null when
rotation is not active, else the rotating key; errors propagate). -/
def part001Override (env : Env) (incoming : Option String) (service : String)
    (storeRows : Except String (Option Int)) : Except ErrR (Option String) :=
  if rotationActive env.masterKey env.dbConfigured incoming then
    getRotatingKeyFromD1 service (env.secrets (secretName service)) storeRows
  else
    .ok none

/-- What `handleRequest` produced: the response, how many upstream fetches it
performed, and the headers / `key` query parameter of the outbound request. -/
structure HandleOut where
  resp : Resp
  dispatches : Nat
  outHeaders : Option Hdrs
  outQueryKey : Option String
  deriving DecidableEq, Repr

/-- `handleRequest(request, service, overrideApiKey, isIntelligentGateway,
modifiedBody)` from `part_001` (lines 165–200).  OPTIONS short-circuits to a
204 without dispatching; an unknown service throws a 404 `ErrorResponse`;
otherwise the credential is injected (query `key` parameter for `gemini`, with
the `Authorization` and `x-goog-api-key` headers deleted; `Authorization:
Bearer` for every other service) and exactly one upstream fetch happens. -/
def handleRequest (req : Req) (service : String) (overrideApiKey : Option String)
    (isIntelligent : Bool) (upstream : Resp) : Except ErrR HandleOut :=
  if req.method = "OPTIONS" then
    .ok ⟨⟨204, ""⟩, 0, none, none⟩
  else
    match routeLookup ROUTE_MAP service with
    | none => .error ⟨"Unknown service provider: \"" ++ service ++ "\".", 404⟩
    | some _targetHost =>
      let hq : Hdrs × Option String :=
        match overrideApiKey with
        | some k =>
          if k ≠ "" then
            if service = "gemini" then
              (hDelete (hDelete req.headers "Authorization") "x-goog-api-key", some k)
            else
              (hSet req.headers "Authorization" ("Bearer " ++ k), req.queryKey)
          else (req.headers, req.queryKey)
        | none => (req.headers, req.queryKey)
      let newHeaders := if isIntelligent then hSet hq.1 "Content-Type" "application/json" else hq.1
      .ok ⟨upstream, 1, some newHeaders, hq.2⟩

/-- The observable outcome of one `part_001` request: the response, the number
of upstream dispatches, the cache key looked up (if any), the stored entry
`(key, TTL)` (if any), whether a telemetry record was emitted, and the
outbound headers / query credential (if a dispatch happened). -/
structure Trace where
  resp : Resp
  dispatches : Nat
  lookedUp : Option String
  stored : Option (String × Nat)
  telemetry : Bool
  outHeaders : Option Hdrs
  outQueryKey : Option String
  deriving DecidableEq, Repr

/-- The catch-block of `part_001`'s `fetch`: a JSON error response with the
thrown status; the finally-block still emits telemetry. -/
def errTrace (er : ErrR) (lookedUp : Option String) : Trace :=
  ⟨⟨er.status, jsonError er.message⟩, 0, lookedUp, none, true, none, none⟩

/-- The `cacheKey` computed at line 84 of `part_001`'s `fetch`: the
body-override passed to `generateContentBasedCacheKey` is the stringified
(rewritten) request body in Intelligent mode and null otherwise. -/
def fetchCacheKey (req : Req) (rc : RouteCtx) (ext : Ext) : String :=
  generateContentBasedCacheKey ext.digest req
    (if rc.isIntelligent then some (ext.stringify rc.requestBody) else none)

/-- The universal-caching block of `part_001`'s `fetch` (lines 81–102) plus
the call into `handleRequest`: cacheability check, lookup-before-dispatch,
store-on-success with the fixed TTL. -/
def cacheAndDispatch (req : Req) (rc : RouteCtx) (ov : Option String)
    (ext : Ext) : Trace :=
  if isRequestCacheable req.method req.pathname rc.logModel then
    match ext.cacheLookup (fetchCacheKey req rc ext) with
    | some cached =>
      ⟨cached, 0, some (fetchCacheKey req rc ext), none, true, none, none⟩
    | none =>
      match handleRequest req rc.service ov rc.isIntelligent ext.upstream with
      | .error er => errTrace er (some (fetchCacheKey req rc ext))
      | .ok h =>
        ⟨h.resp, h.dispatches, some (fetchCacheKey req rc ext),
         if respOk h.resp then some (fetchCacheKey req rc ext, CACHE_TTL_SECONDS) else none,
         true, h.outHeaders, h.outQueryKey⟩
  else
    match handleRequest req rc.service ov rc.isIntelligent ext.upstream with
    | .error er => errTrace er none
    | .ok h => ⟨h.resp, h.dispatches, none, none, true, h.outHeaders, h.outQueryKey⟩

/-- The whole `fetch` handler of `part_001` (lines 34–125): routing, rotation,
caching, dispatch, catch and finally. -/
def part001Fetch (env : Env) (req : Req) (ext : Ext) : Trace :=
  let incoming := getApiKey req
  match part001Route env.masterKey incoming req with
  | .error er => errTrace er none
  | .ok rc =>
    match part001Override env incoming rc.service ext.storeRows with
    | .error er => errTrace er none
    | .ok ov => cacheAndDispatch req rc ov ext

end P1

namespace CF

/-- `extractApiKey(request, service)` from the cfapi rotation worker:
per-service extraction (`x-goog-api-key` for gemini, `x-api-key` for claude,
`Authorization: Bearer` otherwise). -/
def extractApiKey (req : Req) (service : String) : Option String :=
  let authHeader := hGet req.headers "Authorization"
  if toLowerStr service = "gemini" then
    jsOrNull (hGet req.headers "x-goog-api-key")
  else if toLowerStr service = "claude" then
    jsOrNull (hGet req.headers "x-api-key")
  else
    if truthy authHeader && strStarts (authHeader.getD "") "Bearer " then
      some (strDrop (authHeader.getD "") 7)
    else none

/-- `getNextKeyIndex(db, service, keysCount)` from the cfapi rotation worker.
`db = false` models a missing `DB` binding (the function throws).  Note the
result-row fallback is JS `|| 1`, which also coerces a raw index of `0`
(contrast `P1.rotOffset`, which uses `?? 1`). -/
def getNextKeyIndex (db : Bool) (storeRows : Except String (Option Int))
    (keysCount : Int) : Except String Int :=
  if ¬ db then .error "D1数据库未配置"
  else
    match storeRows with
    | .error e => .error ("D1数据库错误: " ++ e)
    | .ok row =>
      let nextIndex := jsOrInt row 1
      .ok (Int.tmod (nextIndex - 1 + keysCount) keysCount)

/-- The per-call offset computed by `getNextKeyIndex` from a returned row. -/
def cfOffset (N : Int) (row : Option Int) : Int :=
  Int.tmod (jsOrInt row 1 - 1 + N) N

/-- The credential-injection `switch` of `handleRequestWithRotation`
(lines 192–205): header `x-goog-api-key` for gemini, header `x-api-key` for
claude, `Authorization: Bearer` otherwise; nothing is deleted. -/
def injectHeaders (service selectedKey : String) (hs : Hdrs) : Hdrs :=
  if toLowerStr service = "gemini" then hSet hs "x-goog-api-key" selectedKey
  else if toLowerStr service = "claude" then hSet hs "x-api-key" selectedKey
  else hSet hs "Authorization" ("Bearer " ++ selectedKey)

/-- Environment bindings of the cfapi rotation worker. -/
structure CfEnv where
  masterKey : Option String
  db : Bool
  secrets : String → Option SecretVal

/-- External collaborators of one cfapi rotation-worker request. -/
structure CfExt where
  storeRows : Except String (Option Int)
  upstream : Resp

/-- Outcome of `handleRequestWithRotation`. -/
structure CfOut where
  resp : Resp
  dispatches : Nat
  outHeaders : Option Hdrs
  deriving DecidableEq, Repr

/-- The rotation guard of the cfapi worker (line 173):
`masterKey && requestApiKey === masterKey`. -/
def rotationGuard (masterKey requestApiKey : Option String) : Bool :=
  match masterKey with
  | none => false
  | some mk => mk ≠ "" && requestApiKey == some mk

/-- `handleRequestWithRotation(request, service, env)` from the cfapi rotation
worker (lines 150–234).  Rotation activates when `MASTER_KEY` is truthy and
the extracted credential strictly equals it; a missing / non-array / empty
pool yields status 326, a `JSON.parse` throw or a `getNextKeyIndex` throw is
caught and yields status 500, and otherwise the selected pool key is injected
and one upstream fetch happens.  Without rotation the original headers are
forwarded unchanged. -/
def handleRequestWithRotation (req : Req) (service : String) (env : CfEnv)
    (ext : CfExt) : CfOut :=
  if req.method = "OPTIONS" then ⟨⟨204, ""⟩, 0, none⟩
  else if rotationGuard env.masterKey (extractApiKey req service) then
    match env.secrets (secretName service) with
    | none => ⟨⟨326, "未配置轮询api key"⟩, 0, none⟩
    | some .malformed => ⟨⟨500, "轮询配置错误: Unexpected token in JSON"⟩, 0, none⟩
    | some .notArray => ⟨⟨326, "未配置轮询api key"⟩, 0, none⟩
    | some (.arr serviceKeys) =>
      if serviceKeys.length = 0 then ⟨⟨326, "未配置轮询api key"⟩, 0, none⟩
      else
        match getNextKeyIndex env.db ext.storeRows serviceKeys.length with
        | .error e => ⟨⟨500, "轮询配置错误: " ++ e⟩, 0, none⟩
        | .ok nextIndex =>
          ⟨ext.upstream, 1,
           some (injectHeaders service ((serviceKeys.get? nextIndex.toNat).getD "")
             req.headers)⟩
  else
    ⟨ext.upstream, 1, some req.headers⟩

/-- Outcome of the cfapi rotation worker's `fetch`, with its telemetry flag. -/
structure CfTrace where
  resp : Resp
  dispatches : Nat
  telemetry : Bool
  deriving DecidableEq, Repr

/-- The `fetch` handler of the cfapi rotation worker (lines 96–139): the
pre-flight gate returns status 325 — without logging — when the path has no
segments or the first segment is not a `ROUTE_MAP` key; otherwise the request
is served and a telemetry record is emitted. -/
def cfFetch (req : Req) (env : CfEnv) (ext : CfExt) : CfTrace :=
  match splitPath req.pathname with
  | [] => ⟨⟨325, "url格式错误"⟩, 0, false⟩
  | s :: _ =>
    if (routeLookup ROUTE_MAP s).isNone then ⟨⟨325, "url格式错误"⟩, 0, false⟩
    else
      let out := handleRequestWithRotation req s env ext
      ⟨out.resp, out.dispatches, true⟩

/-- The cache key of the cfapi *cached* worker's `generateCacheKey`
(lines 503–517): the hex digest is resolved as a relative URL against
`request.url`, so the key is the pair (base URL, hex digest). -/
structure CfCacheKey where
  base : String
  hex : String
  deriving DecidableEq, Repr

/-- The string hashed by the cfapi cached worker's `generateCacheKey`:
`request.url + body` — the method is not part of the material. -/
def cacheKeyMaterial (req : Req) : String :=
  req.url ++ req.bodyText

/-- `generateCacheKey(request)` from the cfapi cached worker. -/
def generateCacheKey (digest : String → List Nat) (req : Req) : CfCacheKey :=
  ⟨req.url, P1.hexOfBytes (digest (cacheKeyMaterial req))⟩

/-- `isRequestCacheable(request, requestData)` from the cfapi cached worker
(lines 474–498); logically identical to `P1.isRequestCacheable`. -/
def isRequestCacheable (method pathname model : String) : Bool :=
  if method ≠ "POST" then false
  else if NON_CACHEABLE_PATHS.any (fun p => containsSubstr pathname p) then false
  else if NON_CACHEABLE_MODELS.any (fun kw => containsSubstr (toLowerStr model) kw) then false
  else true

end CF

/-- The pool offsets selected by `part_001`'s `getRotatingKeyFromD1` over `n`
consecutive activated calls for one service (empty counter table at start). -/
def part001OffsetSeq (N : Int) (n : Nat) : List Int :=
  (d1RawSeq N n).map (fun raw => P1.rotOffset N (some raw))

/-- The pool offsets selected by the cfapi worker's `getNextKeyIndex` over `n`
consecutive activated calls for one service (empty counter table at start). -/
def cfOffsetSeq (N : Int) (n : Nat) : List Int :=
  (d1RawSeq N n).map (fun raw => CF.cfOffset N (some raw))

/-! ## Helper lemmas -/

theorem hGet_hSet_self (hs : Hdrs) (n v : String) :
    hGet (hSet hs n v) n = some v := by
  induction hs with
  | nil => simp [hGet, hSet]
  | cons p t ih =>
    by_cases h : toLowerStr p.1 = toLowerStr n
    · simpa [hSet, List.filter_cons, h] using ih
    · simpa [hGet, hSet, List.filter_cons, h] using ih

theorem hGet_hSet_other (hs : Hdrs) (n v m : String)
    (hnm : toLowerStr m ≠ toLowerStr n) :
    hGet (hSet hs n v) m = hGet hs m := by
  have hn' : ¬ toLowerStr n = toLowerStr m := fun hc => hnm hc.symm
  induction hs with
  | nil => simp [hGet, hSet, hn']
  | cons p t ih =>
    by_cases h : toLowerStr p.1 = toLowerStr n
    · have hpm : ¬ toLowerStr p.1 = toLowerStr m := by
        rw [h]; exact fun hc => hnm hc.symm
      simpa [hGet, hSet, List.filter_cons, h, hpm, hn', hnm] using ih
    · by_cases hpm : toLowerStr p.1 = toLowerStr m
      · simp [hGet, hSet, List.filter_cons, h, hpm, hn', hnm]
      · simpa [hGet, hSet, List.filter_cons, h, hpm, hn', hnm] using ih

theorem hGet_hDelete_self (hs : Hdrs) (n : String) :
    hGet (hDelete hs n) n = none := by
  induction hs with
  | nil => simp [hGet, hDelete]
  | cons p t ih =>
    by_cases h : toLowerStr p.1 = toLowerStr n
    · simpa [hDelete, List.filter_cons, h] using ih
    · simpa [hGet, hDelete, List.filter_cons, h] using ih

theorem hGet_hDelete_other (hs : Hdrs) (n m : String)
    (hnm : toLowerStr m ≠ toLowerStr n) :
    hGet (hDelete hs n) m = hGet hs m := by
  have hn' : ¬ toLowerStr n = toLowerStr m := fun hc => hnm hc.symm
  induction hs with
  | nil => simp [hDelete]
  | cons p t ih =>
    by_cases h : toLowerStr p.1 = toLowerStr n
    · have hpm : ¬ toLowerStr p.1 = toLowerStr m := by
        rw [h]; exact fun hc => hnm hc.symm
      simpa [hGet, hDelete, List.filter_cons, h, hpm, hn', hnm] using ih
    · by_cases hpm : toLowerStr p.1 = toLowerStr m
      · simp [hGet, hDelete, List.filter_cons, h, hpm, hn', hnm]
      · simpa [hGet, hDelete, List.filter_cons, h, hpm, hn', hnm] using ih

theorem chSplitAux_ne_nil (sep : Char) :
    ∀ (cs acc : List Char), chSplitAux sep cs acc ≠ []
  | [], acc => by simp [chSplitAux]
  | c :: cs, acc => by
    by_cases h : c = sep
    · simp [chSplitAux, h]
    · simpa [chSplitAux, h] using chSplitAux_ne_nil sep cs (c :: acc)

theorem joinSlash_chSplitAux (cs acc : List Char) :
    joinSlash (chSplitAux '/' cs acc) = String.mk (acc.reverse ++ cs) := by
  induction cs generalizing acc with
  | nil => simp [chSplitAux, joinSlash]
  | cons c cs ih =>
    by_cases h : c = '/'
    · subst h
      obtain ⟨y, t, hyt⟩ : ∃ y t, chSplitAux '/' cs [] = y :: t := by
        cases hL : chSplitAux '/' cs [] with
        | nil => exact absurd hL (chSplitAux_ne_nil '/' cs [])
        | cons y t => exact ⟨y, t, rfl⟩
      have step : chSplitAux '/' ('/' :: cs) acc
          = String.mk acc.reverse :: chSplitAux '/' cs [] := by
        simp [chSplitAux]
      rw [step, hyt]
      have hj : joinSlash (String.mk acc.reverse :: y :: t)
          = String.mk acc.reverse ++ "/" ++ joinSlash (y :: t) := rfl
      rw [hj, ← hyt, ih []]
      apply String.ext
      simp
    · have step : chSplitAux '/' (c :: cs) acc = chSplitAux '/' cs (c :: acc) := by
        simp [chSplitAux, h]
      rw [step, ih (c :: acc)]
      apply String.ext
      simp

/-- `parts.join('/')` is a left inverse of `s.split('/')`. -/
theorem joinSlash_splitOnSlash (s : String) : joinSlash (splitOnSlash s) = s := by
  have h := joinSlash_chSplitAux s.data []
  simpa [splitOnSlash] using h

/-! ## Claims -/

/-- **C1** (status: code_bug).  Evaluation of both rotation implementations at
the failing input.  Against a pool of size 3, starting from an empty counter
table, the offsets selected by four consecutive activated calls are
`[0, 1, 2, 0]` under `part_001`'s `getRotatingKeyFromD1` (`?? 1` fallback) —
exactly the rotation the claim states — but `[0, 1, 0, 0]` under the cfapi
worker's `getNextKeyIndex`, whose JS `|| 1` fallback coerces the raw counter
value `0` (returned on every N-th call) to `1`: the third call yields offset
`0` instead of `2`, and pool index 2 is never selected.  For a pool of size 2
the cfapi worker degenerates to always selecting offset 0. -/
theorem rotation_sequence_bug_eval :
    part001OffsetSeq 3 4 = [0, 1, 2, 0] ∧
    cfOffsetSeq 3 4 = [0, 1, 0, 0] ∧
    part001OffsetSeq 2 4 = [0, 1, 0, 1] ∧
    cfOffsetSeq 2 4 = [0, 0, 0, 0] ∧
    d1RawSeq 3 4 = [1, 2, 0, 1] := by
  decide

/-- **C10** (status: confirmed).  For every non-empty pool and every
non-negative raw index from the counter store (including the fallback used
when the store returns no row), the computed offset lies in `[0, N)` under
both implementations, so credential selection always indexes inside the
configured pool. -/
theorem offset_always_in_pool (keys : List String) (row : Option Int)
    (hk : keys ≠ []) (hrow : ∀ v, row = some v → 0 ≤ v) :
    0 ≤ P1.rotOffset keys.length row ∧
    (P1.rotOffset keys.length row).toNat < keys.length ∧
    (keys.get? (P1.rotOffset keys.length row).toNat).isSome ∧
    0 ≤ CF.cfOffset keys.length row ∧
    (CF.cfOffset keys.length row).toNat < keys.length ∧
    (keys.get? (CF.cfOffset keys.length row).toNat).isSome := by
  have hN : 0 < (keys.length : Int) := by
    have : keys.length ≠ 0 := fun h => hk (List.eq_nil_of_length_eq_zero h)
    omega
  have hraw1 : 0 ≤ jsCoalesceInt row 1 := by
    cases row with
    | none => simp [jsCoalesceInt]
    | some v => simpa [jsCoalesceInt] using hrow v rfl
  have hraw2 : 0 ≤ jsOrInt row 1 := by
    cases row with
    | none => simp [jsOrInt]
    | some v =>
      have := hrow v rfl
      rcases eq_or_ne v 0 with h | h
      · simp [jsOrInt, h]
      · simp only [jsOrInt, if_neg h]
        omega
  have bound : ∀ raw : Int, 0 ≤ raw →
      0 ≤ Int.tmod (raw - 1 + keys.length) keys.length ∧
      (Int.tmod (raw - 1 + keys.length) keys.length).toNat < keys.length := by
    intro raw hr
    have ha : (0 : Int) ≤ raw - 1 + keys.length := by omega
    rw [Int.tmod_eq_emod ha (by omega)]
    have h1 : 0 ≤ (raw - 1 + keys.length) % (keys.length : Int) :=
      Int.emod_nonneg _ (by omega)
    have h2 : (raw - 1 + keys.length) % (keys.length : Int) < keys.length :=
      Int.emod_lt_of_pos _ hN
    exact ⟨h1, by omega⟩
  have e1 : P1.rotOffset keys.length row
      = Int.tmod (jsCoalesceInt row 1 - 1 + keys.length) keys.length := rfl
  have e2 : CF.cfOffset keys.length row
      = Int.tmod (jsOrInt row 1 - 1 + keys.length) keys.length := rfl
  have b1 := bound _ hraw1
  have b2 := bound _ hraw2
  rw [e1, e2]
  have g1 : (keys.get? (Int.tmod (jsCoalesceInt row 1 - 1 + keys.length)
      keys.length).toNat).isSome := by
    rw [List.get?_eq_getElem?]
    simp [List.getElem?_eq_getElem b1.2]
  have g2 : (keys.get? (Int.tmod (jsOrInt row 1 - 1 + keys.length)
      keys.length).toNat).isSome := by
    rw [List.get?_eq_getElem?]
    simp [List.getElem?_eq_getElem b2.2]
  exact ⟨b1.1, b1.2, g1, b2.1, b2.2, g2⟩

/-- **C10** witness: the bounds theorem applied at a concrete pool of size 3
and the raw row value 0 (the wrap-around value the store returns). -/
theorem offset_always_in_pool_witness :
    0 ≤ P1.rotOffset (["k1", "k2", "k3"] : List String).length (some 0) ∧
    (P1.rotOffset (["k1", "k2", "k3"] : List String).length (some 0)).toNat <
      (["k1", "k2", "k3"] : List String).length ∧
    ((["k1", "k2", "k3"] : List String).get?
      (P1.rotOffset (["k1", "k2", "k3"] : List String).length (some 0)).toNat).isSome ∧
    0 ≤ CF.cfOffset (["k1", "k2", "k3"] : List String).length (some 0) ∧
    (CF.cfOffset (["k1", "k2", "k3"] : List String).length (some 0)).toNat <
      (["k1", "k2", "k3"] : List String).length ∧
    ((["k1", "k2", "k3"] : List String).get?
      (CF.cfOffset (["k1", "k2", "k3"] : List String).length (some 0)).toNat).isSome :=
  offset_always_in_pool ["k1", "k2", "k3"] (some 0) (by decide)
    (fun v h => by injection h with h2; omega)

/-- **C6** (status: confirmed).  `isRequestCacheable` returns true iff the
method is POST, no entry of the fixed non-cacheable-path list occurs in the
URL path as a substring, and no keyword of the fixed non-cacheable-model list
occurs in the lower-cased model as a substring; in particular a non-cacheable
model keyword forces the result false regardless of path and method.  The
cfapi cached worker's copy agrees with `part_001`'s on all inputs. -/
theorem isCacheable_spec :
    (∀ method pathname model,
      P1.isRequestCacheable method pathname model = true ↔
        (method = "POST" ∧
         (∀ p ∈ NON_CACHEABLE_PATHS, containsSubstr pathname p = false) ∧
         (∀ kw ∈ NON_CACHEABLE_MODELS, containsSubstr (toLowerStr model) kw = false)))
    ∧ (∀ method pathname model kw, kw ∈ NON_CACHEABLE_MODELS →
        containsSubstr (toLowerStr model) kw = true →
        P1.isRequestCacheable method pathname model = false)
    ∧ (∀ method pathname model,
        CF.isRequestCacheable method pathname model
          = P1.isRequestCacheable method pathname model) := by
  have key : ∀ method pathname model,
      P1.isRequestCacheable method pathname model = true ↔
        (method = "POST" ∧
         (∀ p ∈ NON_CACHEABLE_PATHS, containsSubstr pathname p = false) ∧
         (∀ kw ∈ NON_CACHEABLE_MODELS, containsSubstr (toLowerStr model) kw = false)) := by
    intro method pathname model
    unfold P1.isRequestCacheable
    by_cases h1 : method = "POST"
    · by_cases h2 : NON_CACHEABLE_PATHS.any (fun p => containsSubstr pathname p) = true
      · simp only [h1, ne_eq, not_true_eq_false, if_false, h2, if_true]
        simp only [List.any_eq_true] at h2
        obtain ⟨p, hp, hc⟩ := h2
        constructor
        · intro h; exact absurd h (by simp)
        · rintro ⟨-, hall, -⟩
          exact absurd (hall p hp) (by simp [hc])
      · by_cases h3 : NON_CACHEABLE_MODELS.any
            (fun kw => containsSubstr (toLowerStr model) kw) = true
        · simp only [h1, ne_eq, not_true_eq_false, if_false, h2, h3, if_true]
          simp only [List.any_eq_true] at h3
          obtain ⟨kw, hkw, hc⟩ := h3
          constructor
          · intro h; exact absurd h (by simp)
          · rintro ⟨-, -, hall⟩
            exact absurd (hall kw hkw) (by simp [hc])
        · simp only [h1, ne_eq, not_true_eq_false, if_false, h2, h3, if_true]
          simp only [List.any_eq_true, not_exists] at h2 h3
          constructor
          · intro _
            refine ⟨trivial, ?_, ?_⟩
            · intro p hp
              have := h2 p
              simp [hp] at this
              simpa using this
            · intro kw hkw
              have := h3 kw
              simp [hkw] at this
              simpa using this
          · intro h; rfl
    · simp only [ne_eq, h1, not_false_eq_true, if_true]
      constructor
      · intro h; exact absurd h (by simp)
      · rintro ⟨hp, -, -⟩; exact hp.elim
  refine ⟨key, ?_, ?_⟩
  · intro method pathname model kw hkw hc
    have hany : NON_CACHEABLE_MODELS.any
        (fun k => containsSubstr (toLowerStr model) k) = true :=
      List.any_eq_true.mpr ⟨kw, hkw, hc⟩
    unfold P1.isRequestCacheable
    by_cases h1 : method = "POST"
    · by_cases h2 : NON_CACHEABLE_PATHS.any (fun p => containsSubstr pathname p) = true
      · simp [h1, h2]
      · simp [h1, h2, hany]
    · simp [h1]
  · intro method pathname model
    rfl

/-- **C6** witness: concrete evaluations through the theorem — a DALL-E model
is non-cacheable whatever the path and method, and the three defining
conditions hold for a plain chat request. -/
theorem isCacheable_spec_witness :
    P1.isRequestCacheable "GET" "/openai/v1/chat/completions" "DALL-E-3" = false ∧
    P1.isRequestCacheable "POST" "/openai/v1/chat/completions" "gpt-4o" = true :=
  ⟨isCacheable_spec.2.1 "GET" "/openai/v1/chat/completions" "DALL-E-3" "dall-e"
      (by decide) (by decide),
   (isCacheable_spec.1 "POST" "/openai/v1/chat/completions" "gpt-4o").mpr
      ⟨rfl, by decide, by decide⟩⟩

/-- **C2** (status: confirmed).  Cache-key derivation is credential
independent: for any digest function and any two requests with identical URL,
method and body — and arbitrary, possibly different, headers (Authorization,
x-api-key, x-goog-api-key, ...) — both `generateContentBasedCacheKey`
(`part_001`) and `generateCacheKey` (cfapi cached worker) produce identical
cache keys; no header is part of the hashed material. -/
theorem cache_key_credential_independent
    (digest : String → List Nat) (r1 r2 : Req) (ov : Option String)
    (hu : r1.url = r2.url) (hm : r1.method = r2.method)
    (hb : r1.bodyText = r2.bodyText) :
    P1.generateContentBasedCacheKey digest r1 ov
      = P1.generateContentBasedCacheKey digest r2 ov ∧
    CF.generateCacheKey digest r1 = CF.generateCacheKey digest r2 := by
  constructor
  · unfold P1.generateContentBasedCacheKey P1.cacheKeyMaterial
    rw [hu, hm, hb]
  · unfold CF.generateCacheKey CF.cacheKeyMaterial
    rw [hu, hb]

/-- **C2** witness: two concrete requests differing only in their
`Authorization` header receive the same key under both derivations. -/
theorem cache_key_credential_independent_witness :
    P1.generateContentBasedCacheKey (fun s => [s.data.length])
      ⟨"https://w/openai/v1/chat/completions", "/openai/v1/chat/completions",
        "POST", [("Authorization", "Bearer AAA")], none, "body1", none⟩ none
    = P1.generateContentBasedCacheKey (fun s => [s.data.length])
      ⟨"https://w/openai/v1/chat/completions", "/openai/v1/chat/completions",
        "POST", [("Authorization", "Bearer BBB")], none, "body1", none⟩ none ∧
    CF.generateCacheKey (fun s => [s.data.length])
      ⟨"https://w/openai/v1/chat/completions", "/openai/v1/chat/completions",
        "POST", [("Authorization", "Bearer AAA")], none, "body1", none⟩
    = CF.generateCacheKey (fun s => [s.data.length])
      ⟨"https://w/openai/v1/chat/completions", "/openai/v1/chat/completions",
        "POST", [("Authorization", "Bearer BBB")], none, "body1", none⟩ :=
  cache_key_credential_independent (fun s => [s.data.length]) _ _ none rfl rfl rfl

/-- **C5** counterexample: in the cfapi cached worker the hashed material is
`request.url + body` — the method is *not* part of it — so, already for the
digest that records the material's length, the key's hex component differs
from the hex digest of URL ++ method ++ body that the claim prescribes. -/
theorem cfapi_cache_key_ignores_method :
    (CF.generateCacheKey (fun s => [s.data.length])
        ⟨"u", "/openai/v1/chat/completions", "POST", [], none, "b", none⟩).hex
      ≠ P1.hexOfBytes ((fun s => [s.data.length]) ("u" ++ "POST" ++ "b")) := by
  decide

/-- **C5** (status: corrected).  The actual key material: `part_001` hashes
`request.url + request.method + body` (the body-override — the stringified
rewritten body supplied in Intelligent mode, see `P1.cacheAndDispatch` — when
truthy, else the raw body text) and embeds the hex digest in a fixed cache
URL; the cfapi cached worker hashes `request.url + body` only, without the
method, resolving the hex against the request URL. -/
theorem cache_key_material_spec (digest : String → List Nat) (req : Req)
    (ovBody : String) (hov : ovBody ≠ "") :
    P1.generateContentBasedCacheKey digest req (some ovBody)
      = "https://cache.internal/"
          ++ P1.hexOfBytes (digest (req.url ++ req.method ++ ovBody)) ∧
    P1.generateContentBasedCacheKey digest req none
      = "https://cache.internal/"
          ++ P1.hexOfBytes (digest (req.url ++ req.method ++ req.bodyText)) ∧
    CF.generateCacheKey digest req
      = ⟨req.url, P1.hexOfBytes (digest (req.url ++ req.bodyText))⟩ := by
  refine ⟨?_, rfl, rfl⟩
  unfold P1.generateContentBasedCacheKey P1.cacheKeyMaterial
  simp [hov]

/-- **C5** witness: the material equations at a concrete request and a
concrete rewritten body. -/
theorem cache_key_material_spec_witness :
    P1.generateContentBasedCacheKey (fun s => [s.data.length])
      ⟨"u", "/p", "POST", [], none, "raw", none⟩ (some "rewritten")
      = "https://cache.internal/"
          ++ P1.hexOfBytes ((fun s => [s.data.length]) ("u" ++ "POST" ++ "rewritten")) ∧
    P1.generateContentBasedCacheKey (fun s => [s.data.length])
      ⟨"u", "/p", "POST", [], none, "raw", none⟩ none
      = "https://cache.internal/"
          ++ P1.hexOfBytes ((fun s => [s.data.length]) ("u" ++ "POST" ++ "raw")) ∧
    CF.generateCacheKey (fun s => [s.data.length])
      ⟨"u", "/p", "POST", [], none, "raw", none⟩
      = ⟨"u", P1.hexOfBytes ((fun s => [s.data.length]) ("u" ++ "raw"))⟩ :=
  cache_key_material_spec (fun s => [s.data.length])
    ⟨"u", "/p", "POST", [], none, "raw", none⟩ "rewritten" (by decide)

/-- **C3** counterexample: with a valid master key and body model `"openai/"`
— which has a provider token but an *empty* rest — `part_001`'s Intelligent
classification does not fail with `InvalidModel` as the claim requires: the
`split('/')` check only demands at least two parts and a known provider, so
the request is accepted with service `openai` and forwarded model `""`. -/
theorem intelligent_empty_rest_accepted :
    P1.part001Route (some "mk") (some "mk")
      ⟨"u", "/v1/chat/completions", "POST", [], none, "b", some ⟨some "openai/", "r"⟩⟩
      = .ok ⟨"openai", "", true, ⟨some "", "r"⟩⟩ := by
  decide

/-- **C3** (status: corrected).  Intelligent-mode classification as the code
performs it: a JS-truthy credential strictly equal to the master secret is
required, else 401; the body model must split on `/` into at least two parts
with a first part that is a route-table key, else `InvalidModel` (400) — an
*empty* rest is accepted; on success the first part becomes the service and
the forwarded model is the rest of the model with the provider token and its
slash stripped (`service ++ "/" ++ forwarded = model`). -/
theorem intelligent_mode_classification (masterKey incoming : Option String)
    (req : Req) (bj : BodyJson)
    (hp : strStarts req.pathname "/v1/chat/completions" = true)
    (hbody : req.bodyJson = some bj) :
    (¬ (truthy incoming = true ∧ incoming = masterKey) →
      P1.part001Route masterKey incoming req
        = .error ⟨"This endpoint requires a valid Master Key.", 401⟩) ∧
    (truthy incoming = true → incoming = masterKey →
      (((splitOnSlash (bj.model.getD "")).length < 2 ∨
          (routeLookup ROUTE_MAP ((splitOnSlash (bj.model.getD "")).headD "")).isNone) →
        P1.part001Route masterKey incoming req
          = .error ⟨"Invalid model format. Expected \x27provider/model_name\x27, received: \x27"
              ++ bj.model.getD "" ++ "\x27", 400⟩) ∧
      (2 ≤ (splitOnSlash (bj.model.getD "")).length →
        (routeLookup ROUTE_MAP ((splitOnSlash (bj.model.getD "")).headD "")).isSome →
        P1.part001Route masterKey incoming req
          = .ok ⟨(splitOnSlash (bj.model.getD "")).headD "",
                 joinSlash (splitOnSlash (bj.model.getD "")).tail, true,
                 { bj with model := some (joinSlash (splitOnSlash (bj.model.getD "")).tail) }⟩ ∧
        (splitOnSlash (bj.model.getD "")).headD "" ++ "/"
            ++ joinSlash (splitOnSlash (bj.model.getD "")).tail = bj.model.getD "")) := by
  constructor
  · intro hno
    have hb : ¬ ((truthy incoming && incoming == masterKey) = true) := by
      simp only [Bool.and_eq_true, beq_iff_eq]
      exact hno
    unfold P1.part001Route
    rw [if_pos hp, if_pos hb]
  · intro ht he
    have hb : (truthy incoming && incoming == masterKey) = true := by
      simp only [Bool.and_eq_true, beq_iff_eq]
      exact ⟨ht, he⟩
    have hmodel : (match bj.model with | none => "" | some m => m) = bj.model.getD "" := by
      cases bj.model <;> rfl
    constructor
    · intro hbad
      unfold P1.part001Route
      rw [if_pos hp, if_neg (by simp [hb]), hbody]
      simp only [hmodel]
      rw [if_pos hbad]
    · intro hlen hroute
      have hgood : ¬ ((splitOnSlash (bj.model.getD "")).length < 2 ∨
          (routeLookup ROUTE_MAP ((splitOnSlash (bj.model.getD "")).headD "")).isNone) := by
        rintro (h | h)
        · omega
        · have hn := Option.isNone_iff_eq_none.mp h
          rw [hn] at hroute
          simp at hroute
      constructor
      · unfold P1.part001Route
        rw [if_pos hp, if_neg (by simp [hb]), hbody]
        simp only [hmodel]
        rw [if_neg hgood]
      · obtain ⟨p, rest, hsplit⟩ : ∃ p rest, splitOnSlash (bj.model.getD "")
            = p :: rest := by
          cases hL : splitOnSlash (bj.model.getD "") with
          | nil => rw [hL] at hlen; simp at hlen
          | cons p rest => exact ⟨p, rest, rfl⟩
        obtain ⟨q, t, hrest⟩ : ∃ q t, rest = q :: t := by
          cases hR : rest with
          | nil =>
            rw [hsplit, hR] at hlen
            simp at hlen
          | cons q t => exact ⟨q, t, rfl⟩
        have hrec := joinSlash_splitOnSlash (bj.model.getD "")
        rw [hsplit, hrest] at hrec
        rw [hsplit, hrest]
        simpa [joinSlash] using hrec

/-- **C3** witness: the amended classification applied at concrete inputs —
`"openai/gpt-4o"` with the right master key classifies to service `openai`
and forwarded model `gpt-4o`; a wrong credential yields the 401 error. -/
theorem intelligent_mode_classification_witness :
    P1.part001Route (some "mk") (some "mk")
      ⟨"u", "/v1/chat/completions", "POST", [], none, "b", some ⟨some "openai/gpt-4o", "r"⟩⟩
      = .ok ⟨"openai", "gpt-4o", true, ⟨some "gpt-4o", "r"⟩⟩ ∧
    P1.part001Route (some "mk") (some "xx")
      ⟨"u", "/v1/chat/completions", "POST", [], none, "b", some ⟨some "openai/gpt-4o", "r"⟩⟩
      = .error ⟨"This endpoint requires a valid Master Key.", 401⟩ := by
  constructor
  · exact ((intelligent_mode_classification (some "mk") (some "mk")
      ⟨"u", "/v1/chat/completions", "POST", [], none, "b", some ⟨some "openai/gpt-4o", "r"⟩⟩
      ⟨some "openai/gpt-4o", "r"⟩ (by decide) rfl).2 (by decide) rfl).2
      (by decide) (by decide) |>.1
  · exact (intelligent_mode_classification (some "mk") (some "xx")
      ⟨"u", "/v1/chat/completions", "POST", [], none, "b", some ⟨some "openai/gpt-4o", "r"⟩⟩
      ⟨some "openai/gpt-4o", "r"⟩ (by decide) rfl).1 (by decide)

theorem handleRequest_dispatches_le_one (req : Req) (service : String)
    (ov : Option String) (intel : Bool) (up : Resp) (h : P1.HandleOut)
    (hh : P1.handleRequest req service ov intel up = .ok h) :
    h.dispatches ≤ 1 := by
  unfold P1.handleRequest at hh
  by_cases hm : req.method = "OPTIONS"
  · rw [if_pos hm] at hh
    cases hh
    simp
  · rw [if_neg hm] at hh
    cases hr : routeLookup ROUTE_MAP service with
    | none =>
      rw [hr] at hh
      cases hh
    | some host =>
      rw [hr] at hh
      cases hh
      simp

theorem cacheAndDispatch_dispatches_le_one (req : Req) (rc : P1.RouteCtx)
    (ov : Option String) (ext : P1.Ext) :
    (P1.cacheAndDispatch req rc ov ext).dispatches ≤ 1 := by
  unfold P1.cacheAndDispatch
  by_cases hc : P1.isRequestCacheable req.method req.pathname rc.logModel = true
  · rw [if_pos hc]
    cases hl : ext.cacheLookup (P1.fetchCacheKey req rc ext) with
    | some cached => simp
    | none =>
      cases hh : P1.handleRequest req rc.service ov rc.isIntelligent ext.upstream with
      | error er => simp [P1.errTrace]
      | ok h =>
        simpa using handleRequest_dispatches_le_one req rc.service ov rc.isIntelligent
          ext.upstream h hh
  · rw [if_neg hc]
    cases hh : P1.handleRequest req rc.service ov rc.isIntelligent ext.upstream with
    | error er => simp [P1.errTrace]
    | ok h =>
      simpa using handleRequest_dispatches_le_one req rc.service ov rc.isIntelligent
        ext.upstream h hh

theorem part001Fetch_dispatches_le_one (env : P1.Env) (req : Req) (ext : P1.Ext) :
    (P1.part001Fetch env req ext).dispatches ≤ 1 := by
  unfold P1.part001Fetch
  dsimp only
  cases hr : P1.part001Route env.masterKey (P1.getApiKey req) req with
  | error er => simp [P1.errTrace]
  | ok rc =>
    dsimp only
    cases ho : P1.part001Override env (P1.getApiKey req) rc.service ext.storeRows with
    | error er => simp [P1.errTrace]
    | ok ov => exact cacheAndDispatch_dispatches_le_one req rc ov ext

/-- **C4** (status: confirmed).  Cache orchestration of `part_001`: on a
cacheable request, a cache hit returns the stored entry with zero upstream
dispatches and no store; a cache miss on a routed non-OPTIONS request
dispatches exactly once, returns the upstream response, and stores it under
the same key with the fixed TTL iff the upstream status is a success; a
non-cacheable routed non-OPTIONS request dispatches exactly once with no
lookup and no store; and no request ever triggers more than one upstream
dispatch. -/
theorem cache_orchestration (req : Req) (rc : P1.RouteCtx) (ov : Option String)
    (ext : P1.Ext) :
    (P1.isRequestCacheable req.method req.pathname rc.logModel = true →
      (∀ cached, ext.cacheLookup (P1.fetchCacheKey req rc ext) = some cached →
        P1.cacheAndDispatch req rc ov ext
          = ⟨cached, 0, some (P1.fetchCacheKey req rc ext), none, true, none, none⟩) ∧
      (ext.cacheLookup (P1.fetchCacheKey req rc ext) = none →
        req.method ≠ "OPTIONS" → (routeLookup ROUTE_MAP rc.service).isSome →
        (P1.cacheAndDispatch req rc ov ext).dispatches = 1 ∧
        (P1.cacheAndDispatch req rc ov ext).resp = ext.upstream ∧
        ((P1.cacheAndDispatch req rc ov ext).stored
            = some (P1.fetchCacheKey req rc ext, CACHE_TTL_SECONDS)
          ↔ respOk ext.upstream = true))) ∧
    (P1.isRequestCacheable req.method req.pathname rc.logModel = false →
      req.method ≠ "OPTIONS" → (routeLookup ROUTE_MAP rc.service).isSome →
      (P1.cacheAndDispatch req rc ov ext).dispatches = 1 ∧
      (P1.cacheAndDispatch req rc ov ext).lookedUp = none ∧
      (P1.cacheAndDispatch req rc ov ext).stored = none) ∧
    (∀ env : P1.Env, (P1.part001Fetch env req ext).dispatches ≤ 1) := by
  refine ⟨?_, ?_, fun env => part001Fetch_dispatches_le_one env req ext⟩
  · intro hc
    constructor
    · intro cached hl
      unfold P1.cacheAndDispatch
      rw [if_pos hc, hl]
    · intro hl hm hsvc
      rcases Option.isSome_iff_exists.mp hsvc with ⟨host, hhost⟩
      cases hh : P1.handleRequest req rc.service ov rc.isIntelligent ext.upstream with
      | error er =>
        unfold P1.handleRequest at hh
        rw [if_neg hm, hhost] at hh
        cases hh
      | ok h =>
        have hfields : h.resp = ext.upstream ∧ h.dispatches = 1 := by
          unfold P1.handleRequest at hh
          rw [if_neg hm, hhost] at hh
          cases hh
          exact ⟨rfl, rfl⟩
        have htr : P1.cacheAndDispatch req rc ov ext
            = ⟨h.resp, h.dispatches, some (P1.fetchCacheKey req rc ext),
               if respOk h.resp then some (P1.fetchCacheKey req rc ext, CACHE_TTL_SECONDS)
                 else none,
               true, h.outHeaders, h.outQueryKey⟩ := by
          unfold P1.cacheAndDispatch
          rw [if_pos hc, hl, hh]
        rw [htr]
        refine ⟨hfields.2, hfields.1, ?_⟩
        rw [hfields.1]
        by_cases hok : respOk ext.upstream = true
        · simp [hok]
        · have hok' : respOk ext.upstream = false := by
            cases hb : respOk ext.upstream
            · rfl
            · exact absurd hb hok
          simp [hok']
  · intro hc hm hsvc
    rcases Option.isSome_iff_exists.mp hsvc with ⟨host, hhost⟩
    have hcf : ¬ (P1.isRequestCacheable req.method req.pathname rc.logModel = true) := by
      simp [hc]
    cases hh : P1.handleRequest req rc.service ov rc.isIntelligent ext.upstream with
    | error er =>
      unfold P1.handleRequest at hh
      rw [if_neg hm, hhost] at hh
      cases hh
    | ok h =>
      have hd : h.dispatches = 1 := by
        unfold P1.handleRequest at hh
        rw [if_neg hm, hhost] at hh
        cases hh
        rfl
      have htr : P1.cacheAndDispatch req rc ov ext
          = ⟨h.resp, h.dispatches, none, none, true, h.outHeaders, h.outQueryKey⟩ := by
        unfold P1.cacheAndDispatch
        rw [if_neg hcf, hh]
      rw [htr]
      exact ⟨hd, rfl, rfl⟩

/-- **C4** witness: the orchestration theorem applied at concrete inputs — a
hit (zero dispatches, stored entry returned), a miss (one dispatch, stored
iff the upstream 200 is a success), and a non-cacheable GET (no lookup). -/
theorem cache_orchestration_witness :
    P1.cacheAndDispatch ⟨"u", "/openai/v1/chat/completions", "POST", [], none, "b", none⟩
        ⟨"openai", "gpt-4o", false, ⟨none, ""⟩⟩ none
        ⟨Except.ok (some 1), fun _ => some ⟨200, "cached"⟩, ⟨200, "up"⟩,
          fun _ => "", fun s => [s.data.length]⟩
      = ⟨⟨200, "cached"⟩, 0,
         some (P1.fetchCacheKey ⟨"u", "/openai/v1/chat/completions", "POST", [], none, "b", none⟩
           ⟨"openai", "gpt-4o", false, ⟨none, ""⟩⟩
           ⟨Except.ok (some 1), fun _ => some ⟨200, "cached"⟩, ⟨200, "up"⟩,
             fun _ => "", fun s => [s.data.length]⟩),
         none, true, none, none⟩ ∧
    (P1.cacheAndDispatch ⟨"u", "/openai/v1/chat/completions", "POST", [], none, "b", none⟩
        ⟨"openai", "gpt-4o", false, ⟨none, ""⟩⟩ none
        ⟨Except.ok (some 1), fun _ => none, ⟨200, "up"⟩,
          fun _ => "", fun s => [s.data.length]⟩).dispatches = 1 ∧
    ((P1.cacheAndDispatch ⟨"u", "/openai/v1/chat/completions", "POST", [], none, "b", none⟩
        ⟨"openai", "gpt-4o", false, ⟨none, ""⟩⟩ none
        ⟨Except.ok (some 1), fun _ => none, ⟨200, "up"⟩,
          fun _ => "", fun s => [s.data.length]⟩).stored
      = some (P1.fetchCacheKey ⟨"u", "/openai/v1/chat/completions", "POST", [], none, "b", none⟩
          ⟨"openai", "gpt-4o", false, ⟨none, ""⟩⟩
          ⟨Except.ok (some 1), fun _ => none, ⟨200, "up"⟩,
            fun _ => "", fun s => [s.data.length]⟩, CACHE_TTL_SECONDS)
      ↔ respOk ⟨200, "up"⟩ = true) ∧
    (P1.cacheAndDispatch ⟨"u", "/openai/v1/models", "GET", [], none, "", none⟩
        ⟨"openai", "unknown", false, ⟨none, ""⟩⟩ none
        ⟨Except.ok (some 1), fun _ => none, ⟨200, "up"⟩,
          fun _ => "", fun s => [s.data.length]⟩).lookedUp = none := by
  refine ⟨?_, ?_, ?_, ?_⟩
  · exact ((cache_orchestration _ _ none _).1 (by decide)).1 ⟨200, "cached"⟩ rfl
  · exact (((cache_orchestration _ _ none _).1 (by decide)).2 rfl (by decide) (by decide)).1
  · exact (((cache_orchestration _ _ none _).1 (by decide)).2 rfl (by decide) (by decide)).2.2
  · exact ((cache_orchestration _ _ none _).2.1 (by decide) (by decide) (by decide)).2.1

/-- **C7** (status: confirmed).  When rotation is activated (master secret
and DB binding configured, incoming credential equal to the secret) and the
service's pool is a well-formed non-empty array but the counter-store update
fails, the request fails outright with the 500-class store error — zero
upstream dispatches, so the caller's own credential is never silently
forwarded.  The cfapi rotation worker behaves the same inside
`handleRequestWithRotation` (there even a missing DB binding fails the
request rather than bypassing rotation). -/
theorem rotation_store_failure_fails_request :
    (∀ (env : P1.Env) (req : Req) (ext : P1.Ext) (mk e : String)
        (keys : List String),
      env.masterKey = some mk → mk ≠ "" → env.dbConfigured = true →
      P1.getApiKey req = some mk →
      strStarts req.pathname "/v1/chat/completions" = false →
      env.secrets (secretName ((splitPath req.pathname).headD "unknown"))
        = some (.arr keys) →
      keys ≠ [] →
      ext.storeRows = .error e →
      (P1.part001Fetch env req ext).dispatches = 0 ∧
      (P1.part001Fetch env req ext).resp.status = 500 ∧
      (P1.part001Fetch env req ext).stored = none) ∧
    (∀ (req : Req) (service : String) (cenv : CF.CfEnv) (cext : CF.CfExt)
        (mk e : String) (keys : List String),
      req.method ≠ "OPTIONS" → cenv.masterKey = some mk → mk ≠ "" →
      CF.extractApiKey req service = some mk →
      cenv.secrets (secretName service) = some (.arr keys) → keys ≠ [] →
      cext.storeRows = .error e →
      (CF.handleRequestWithRotation req service cenv cext).dispatches = 0 ∧
      (CF.handleRequestWithRotation req service cenv cext).resp.status = 500) := by
  constructor
  · intro env req ext mk e keys hmk hmk2 hdb hinc htrans hsecret hkeys hstore
    have hserv : P1.part001Route env.masterKey (P1.getApiKey req) req
        = .ok ⟨(splitPath req.pathname).headD "unknown",
            (match req.bodyJson with
              | none => "unknown"
              | some bj => match bj.model with
                | none => "unknown"
                | some m => if m = "" then "unknown" else m),
            false, ⟨none, ""⟩⟩ := by
      unfold P1.part001Route
      rw [if_neg (by simp [htrans])]
      cases hsp : splitPath req.pathname with
      | nil => simp [hsp]
      | cons s t => simp [hsp]
    have hactive : P1.rotationActive env.masterKey env.dbConfigured
        (P1.getApiKey req) = true := by
      unfold P1.rotationActive
      rw [hmk, hdb, hinc]
      simp [hmk2]
    have hov : P1.part001Override env (P1.getApiKey req)
        ((splitPath req.pathname).headD "unknown") ext.storeRows
        = .error ⟨"D1 Database Error: " ++ e, 500⟩ := by
      unfold P1.part001Override
      rw [if_pos hactive]
      unfold P1.getRotatingKeyFromD1
      rw [hsecret]
      dsimp only
      have hlen : ¬ (keys.length = 0) := by
        intro h
        exact hkeys (List.eq_nil_of_length_eq_zero h)
      rw [if_neg hlen, hstore]
    have : P1.part001Fetch env req ext
        = P1.errTrace ⟨"D1 Database Error: " ++ e, 500⟩ none := by
      unfold P1.part001Fetch
      dsimp only
      rw [hserv]
      dsimp only
      rw [hov]
    rw [this]
    exact ⟨rfl, rfl, rfl⟩
  · intro req service cenv cext mk e keys hm hmk hmk2 hinc hsecret hkeys hstore
    have hactive : CF.rotationGuard cenv.masterKey (CF.extractApiKey req service)
        = true := by
      unfold CF.rotationGuard
      rw [hmk, hinc]
      simp [hmk2]
    have hidx : CF.getNextKeyIndex cenv.db cext.storeRows keys.length
        = .error (if cenv.db then "D1数据库错误: " ++ e else "D1数据库未配置") := by
      unfold CF.getNextKeyIndex
      by_cases hdb : cenv.db = true
      · rw [if_neg (by simp [hdb]), hstore]
        simp [hdb]
      · rw [if_pos (by simpa using hdb)]
        simp [hdb]
    have hlen : ¬ (keys.length = 0) := by
      intro h
      exact hkeys (List.eq_nil_of_length_eq_zero h)
    have hout : CF.handleRequestWithRotation req service cenv cext
        = ⟨⟨500, "轮询配置错误: "
            ++ (if cenv.db then "D1数据库错误: " ++ e else "D1数据库未配置")⟩, 0, none⟩ := by
      unfold CF.handleRequestWithRotation
      rw [if_neg hm, if_pos hactive, hsecret]
      dsimp only
      rw [if_neg hlen, hidx]
    rw [hout]
    exact ⟨rfl, rfl⟩

/-- **C7** witness: concrete activated-rotation requests whose counter-store
update fails — both workers answer 500 with zero upstream dispatches. -/
theorem rotation_store_failure_fails_request_witness :
    (P1.part001Fetch
      ⟨some "mk", true, fun n => if n = "OPENAI_KEYS" then some (.arr ["k1", "k2"]) else none⟩
      ⟨"u", "/openai/v1/chat", "POST", [("Authorization", "Bearer mk")], none, "", none⟩
      ⟨.error "boom", fun _ => none, ⟨200, "up"⟩, fun _ => "", fun s => [s.data.length]⟩).dispatches
      = 0 ∧
    (P1.part001Fetch
      ⟨some "mk", true, fun n => if n = "OPENAI_KEYS" then some (.arr ["k1", "k2"]) else none⟩
      ⟨"u", "/openai/v1/chat", "POST", [("Authorization", "Bearer mk")], none, "", none⟩
      ⟨.error "boom", fun _ => none, ⟨200, "up"⟩, fun _ => "", fun s => [s.data.length]⟩).resp.status
      = 500 ∧
    (P1.part001Fetch
      ⟨some "mk", true, fun n => if n = "OPENAI_KEYS" then some (.arr ["k1", "k2"]) else none⟩
      ⟨"u", "/openai/v1/chat", "POST", [("Authorization", "Bearer mk")], none, "", none⟩
      ⟨.error "boom", fun _ => none, ⟨200, "up"⟩, fun _ => "", fun s => [s.data.length]⟩).stored
      = none ∧
    (CF.handleRequestWithRotation
      ⟨"u", "/openai/v1/chat", "GET", [("Authorization", "Bearer mk")], none, "", none⟩
      "openai"
      ⟨some "mk", true, fun n => if n = "OPENAI_KEYS" then some (.arr ["k1", "k2"]) else none⟩
      ⟨.error "boom", ⟨200, "up"⟩⟩).dispatches = 0 ∧
    (CF.handleRequestWithRotation
      ⟨"u", "/openai/v1/chat", "GET", [("Authorization", "Bearer mk")], none, "", none⟩
      "openai"
      ⟨some "mk", true, fun n => if n = "OPENAI_KEYS" then some (.arr ["k1", "k2"]) else none⟩
      ⟨.error "boom", ⟨200, "up"⟩⟩).resp.status = 500 := by
  have h1 := rotation_store_failure_fails_request.1
    ⟨some "mk", true, fun n => if n = "OPENAI_KEYS" then some (.arr ["k1", "k2"]) else none⟩
    ⟨"u", "/openai/v1/chat", "POST", [("Authorization", "Bearer mk")], none, "", none⟩
    ⟨.error "boom", fun _ => none, ⟨200, "up"⟩, fun _ => "", fun s => [s.data.length]⟩
    "mk" "boom" ["k1", "k2"] rfl (by decide) rfl (by decide) (by decide) (by decide)
    (by decide) rfl
  have h2 := rotation_store_failure_fails_request.2
    ⟨"u", "/openai/v1/chat", "GET", [("Authorization", "Bearer mk")], none, "", none⟩
    "openai"
    ⟨some "mk", true, fun n => if n = "OPENAI_KEYS" then some (.arr ["k1", "k2"]) else none⟩
    ⟨.error "boom", ⟨200, "up"⟩⟩
    "mk" "boom" ["k1", "k2"] (by decide) rfl (by decide) (by decide) (by decide)
    (by decide) rfl
  exact ⟨h1.1, h1.2.1, h1.2.2, h2.1, h2.2⟩

/-- **C8** counterexample: the unknown route `/notarealservice/x` — whose
first path segment is present but not a route token, so the claim requires a
404 enumerating all route tokens — is answered by the cfapi rotation worker
with status 325, an unrelated fixed body, and no telemetry record. -/
theorem unknown_route_counterexample :
    (CF.cfFetch ⟨"u", "/notarealservice/x", "GET", [], none, "", none⟩
        ⟨none, false, fun _ => none⟩ ⟨.ok (some 1), ⟨200, "ok"⟩⟩).resp.status = 325 ∧
    (CF.cfFetch ⟨"u", "/notarealservice/x", "GET", [], none, "", none⟩
        ⟨none, false, fun _ => none⟩ ⟨.ok (some 1), ⟨200, "ok"⟩⟩).resp.status ≠ 404 ∧
    (CF.cfFetch ⟨"u", "/notarealservice/x", "GET", [], none, "", none⟩
        ⟨none, false, fun _ => none⟩ ⟨.ok (some 1), ⟨200, "ok"⟩⟩).telemetry = false := by
  decide

/-- **C8** (status: corrected).  What the two cited workers actually do with
a bad route: the cfapi rotation worker answers status 325 with a fixed body
and no telemetry both when the path has no segments and when the first
segment is not a route token (no enumeration, no 404); the unified `part_001`
gateway answers 404 whose body names only the offending service token (no
enumeration either — an empty path is reported as service `unknown`), with a
telemetry record emitted and no upstream dispatch. -/
theorem route_error_responses (req : Req) (cenv : CF.CfEnv) (cext : CF.CfExt)
    (env : P1.Env) (ext : P1.Ext) :
    (splitPath req.pathname = [] →
      CF.cfFetch req cenv cext = ⟨⟨325, "url格式错误"⟩, 0, false⟩) ∧
    (∀ s rest, splitPath req.pathname = s :: rest → routeLookup ROUTE_MAP s = none →
      CF.cfFetch req cenv cext = ⟨⟨325, "url格式错误"⟩, 0, false⟩) ∧
    (∀ s rest, splitPath req.pathname = s :: rest → routeLookup ROUTE_MAP s = none →
      strStarts req.pathname "/v1/chat/completions" = false →
      env.masterKey = none → req.method ≠ "OPTIONS" →
      (∀ k, ext.cacheLookup k = none) →
      (P1.part001Fetch env req ext).resp.status = 404 ∧
      (P1.part001Fetch env req ext).resp.body
        = P1.jsonError ("Unknown service provider: \"" ++ s ++ "\".") ∧
      (P1.part001Fetch env req ext).telemetry = true ∧
      (P1.part001Fetch env req ext).dispatches = 0) := by
  refine ⟨?_, ?_, ?_⟩
  · intro hsp
    unfold CF.cfFetch
    rw [hsp]
  · intro s rest hsp hroute
    unfold CF.cfFetch
    rw [hsp]
    dsimp only
    rw [if_pos (by simp [hroute])]
  · intro s rest hsp hroute htrans hmaster hm hlk
    have hserv : P1.part001Route env.masterKey (P1.getApiKey req) req
        = .ok ⟨s,
            (match req.bodyJson with
              | none => "unknown"
              | some bj => match bj.model with
                | none => "unknown"
                | some m => if m = "" then "unknown" else m),
            false, ⟨none, ""⟩⟩ := by
      unfold P1.part001Route
      rw [if_neg (by simp [htrans])]
      simp [hsp]
    have hov : P1.part001Override env (P1.getApiKey req) s ext.storeRows
        = .ok none := by
      unfold P1.part001Override
      rw [if_neg (by simp [P1.rotationActive, hmaster])]
    have herr : P1.handleRequest req s none false ext.upstream
        = .error ⟨"Unknown service provider: \"" ++ s ++ "\".", 404⟩ := by
      unfold P1.handleRequest
      rw [if_neg hm, hroute]
    have hfe : P1.part001Fetch env req ext
        = P1.cacheAndDispatch req
            ⟨s,
              (match req.bodyJson with
                | none => "unknown"
                | some bj => match bj.model with
                  | none => "unknown"
                  | some m => if m = "" then "unknown" else m),
              false, ⟨none, ""⟩⟩ none ext := by
      unfold P1.part001Fetch
      dsimp only
      rw [hserv]
      dsimp only
      rw [hov]
    have hmain : (P1.part001Fetch env req ext).resp
          = ⟨404, P1.jsonError ("Unknown service provider: \"" ++ s ++ "\".")⟩ ∧
        (P1.part001Fetch env req ext).telemetry = true ∧
        (P1.part001Fetch env req ext).dispatches = 0 := by
      rw [hfe]
      unfold P1.cacheAndDispatch
      by_cases hc : P1.isRequestCacheable req.method req.pathname
          (match req.bodyJson with
            | none => "unknown"
            | some bj => match bj.model with
              | none => "unknown"
              | some m => if m = "" then "unknown" else m) = true
      · rw [if_pos hc, hlk]
        dsimp only
        rw [herr]
        exact ⟨rfl, rfl, rfl⟩
      · rw [if_neg hc]
        dsimp only
        rw [herr]
        exact ⟨rfl, rfl, rfl⟩
    refine ⟨?_, ?_, hmain.2.1, hmain.2.2⟩
    · rw [hmain.1]
    · rw [hmain.1]

/-- **C8** witness: the amended statement at concrete requests — the cfapi
worker's 325 with no telemetry for both the empty path and an unknown token,
and `part_001`'s 404 naming only the offending token, with telemetry. -/
theorem route_error_responses_witness :
    CF.cfFetch ⟨"u", "/", "GET", [], none, "", none⟩
        ⟨none, false, fun _ => none⟩ ⟨.ok (some 1), ⟨200, "ok"⟩⟩
      = ⟨⟨325, "url格式错误"⟩, 0, false⟩ ∧
    CF.cfFetch ⟨"u", "/notarealservice/x", "GET", [], none, "", none⟩
        ⟨none, false, fun _ => none⟩ ⟨.ok (some 1), ⟨200, "ok"⟩⟩
      = ⟨⟨325, "url格式错误"⟩, 0, false⟩ ∧
    (P1.part001Fetch ⟨none, false, fun _ => none⟩
        ⟨"u", "/notarealservice/x", "GET", [], none, "", none⟩
        ⟨.ok (some 1), fun _ => none, ⟨200, "ok"⟩, fun _ => "",
          fun s => [s.data.length]⟩).resp.status = 404 ∧
    (P1.part001Fetch ⟨none, false, fun _ => none⟩
        ⟨"u", "/notarealservice/x", "GET", [], none, "", none⟩
        ⟨.ok (some 1), fun _ => none, ⟨200, "ok"⟩, fun _ => "",
          fun s => [s.data.length]⟩).resp.body
      = P1.jsonError ("Unknown service provider: \"" ++ "notarealservice" ++ "\".") ∧
    (P1.part001Fetch ⟨none, false, fun _ => none⟩
        ⟨"u", "/notarealservice/x", "GET", [], none, "", none⟩
        ⟨.ok (some 1), fun _ => none, ⟨200, "ok"⟩, fun _ => "",
          fun s => [s.data.length]⟩).telemetry = true := by
  have h1 := (route_error_responses ⟨"u", "/", "GET", [], none, "", none⟩
    ⟨none, false, fun _ => none⟩ ⟨.ok (some 1), ⟨200, "ok"⟩⟩
    ⟨none, false, fun _ => none⟩
    ⟨.ok (some 1), fun _ => none, ⟨200, "ok"⟩, fun _ => "", fun s => [s.data.length]⟩).1
    (by decide)
  have h2 := (route_error_responses ⟨"u", "/notarealservice/x", "GET", [], none, "", none⟩
    ⟨none, false, fun _ => none⟩ ⟨.ok (some 1), ⟨200, "ok"⟩⟩
    ⟨none, false, fun _ => none⟩
    ⟨.ok (some 1), fun _ => none, ⟨200, "ok"⟩, fun _ => "", fun s => [s.data.length]⟩).2.1
    "notarealservice" ["x"] (by decide) (by decide)
  have h3 := (route_error_responses ⟨"u", "/notarealservice/x", "GET", [], none, "", none⟩
    ⟨none, false, fun _ => none⟩ ⟨.ok (some 1), ⟨200, "ok"⟩⟩
    ⟨none, false, fun _ => none⟩
    ⟨.ok (some 1), fun _ => none, ⟨200, "ok"⟩, fun _ => "", fun s => [s.data.length]⟩).2.2
    "notarealservice" ["x"] (by decide) (by decide) (by decide) rfl (by decide)
    (fun k => rfl)
  exact ⟨h1, h2, h3.1, h3.2.1, h3.2.2.1⟩

/-- **C9** counterexample: in `part_001`, an activated rotation for service
`claude` does *not* inject the selected pool credential through the
`x-api-key` header the claim names: the caller's original `x-api-key` is
forwarded untouched and the pool key goes into `Authorization: Bearer`. -/
theorem claude_injection_counterexample :
    (P1.handleRequest
        ⟨"u", "/claude/v1/messages", "POST", [("x-api-key", "orig")], none, "", none⟩
        "claude" (some "poolkey") false ⟨200, "ok"⟩).map
      (fun h => (hGet (h.outHeaders.getD []) "x-api-key",
                 hGet (h.outHeaders.getD []) "Authorization"))
      = .ok (some "orig", some ("Bearer " ++ "poolkey")) := by
  decide

/-- **C9** (status: corrected).  Credential injection as each worker performs
it.  `part_001`: service `gemini` gets the pool key as the `key` query
parameter with the caller's `Authorization` and `x-goog-api-key` headers
deleted; every other service — including `claude` — gets
`Authorization: Bearer` with the query string untouched.  The cfapi rotation
worker: `gemini` gets the `x-goog-api-key` *header* (no query parameter, the
caller's `Authorization` is left in place), `claude` gets `x-api-key`, and
every other service gets `Authorization: Bearer`. -/
theorem credential_injection (service k : String) (req : Req) (up : Resp)
    (hk : k ≠ "") (hm : req.method ≠ "OPTIONS")
    (hsvc : (routeLookup ROUTE_MAP service).isSome) :
    (service = "gemini" →
      ∀ h, P1.handleRequest req service (some k) false up = .ok h →
        h.outQueryKey = some k ∧
        hGet (h.outHeaders.getD []) "Authorization" = none ∧
        hGet (h.outHeaders.getD []) "x-goog-api-key" = none) ∧
    (service ≠ "gemini" →
      ∀ h, P1.handleRequest req service (some k) false up = .ok h →
        hGet (h.outHeaders.getD []) "Authorization" = some ("Bearer " ++ k) ∧
        h.outQueryKey = req.queryKey) ∧
    (∀ hs : Hdrs, toLowerStr service = "gemini" →
      hGet (CF.injectHeaders service k hs) "x-goog-api-key" = some k ∧
      hGet (CF.injectHeaders service k hs) "Authorization" = hGet hs "Authorization") ∧
    (∀ hs : Hdrs, toLowerStr service = "claude" →
      hGet (CF.injectHeaders service k hs) "x-api-key" = some k) ∧
    (∀ hs : Hdrs, toLowerStr service ≠ "gemini" → toLowerStr service ≠ "claude" →
      hGet (CF.injectHeaders service k hs) "Authorization" = some ("Bearer " ++ k)) := by
  obtain ⟨host, hhost⟩ := Option.isSome_iff_exists.mp hsvc
  refine ⟨?_, ?_, ?_, ?_, ?_⟩
  · intro hg h hh
    unfold P1.handleRequest at hh
    rw [if_neg hm, hhost] at hh
    dsimp only at hh
    rw [if_pos hk, if_pos hg] at hh
    cases hh
    refine ⟨rfl, ?_, ?_⟩
    · show hGet (hDelete (hDelete req.headers "Authorization") "x-goog-api-key")
        "Authorization" = none
      rw [hGet_hDelete_other _ "x-goog-api-key" "Authorization" (by decide)]
      exact hGet_hDelete_self _ _
    · show hGet (hDelete (hDelete req.headers "Authorization") "x-goog-api-key")
        "x-goog-api-key" = none
      exact hGet_hDelete_self _ _
  · intro hg h hh
    unfold P1.handleRequest at hh
    rw [if_neg hm, hhost] at hh
    dsimp only at hh
    rw [if_pos hk, if_neg hg] at hh
    cases hh
    constructor
    · show hGet (hSet req.headers "Authorization" ("Bearer " ++ k)) "Authorization"
        = some ("Bearer " ++ k)
      exact hGet_hSet_self _ _ _
    · rfl
  · intro hs hg
    unfold CF.injectHeaders
    rw [if_pos hg]
    constructor
    · exact hGet_hSet_self _ _ _
    · exact hGet_hSet_other _ "x-goog-api-key" k "Authorization" (by decide)
  · intro hs hg
    unfold CF.injectHeaders
    by_cases hgem : toLowerStr service = "gemini"
    · rw [hg] at hgem
      exact absurd hgem (by decide)
    · rw [if_neg hgem, if_pos hg]
      exact hGet_hSet_self _ _ _
  · intro hs hg hc
    unfold CF.injectHeaders
    rw [if_neg hg, if_neg hc]
    exact hGet_hSet_self _ _ _

/-- **C9** witness: the injection theorem applied at concrete requests for
`gemini`, `claude` and `openai`. -/
theorem credential_injection_witness :
    ((P1.handleRequest ⟨"u", "/gemini/v1beta/x", "POST",
        [("Authorization", "Bearer caller")], none, "", none⟩
        "gemini" (some "poolkey") false ⟨200, "ok"⟩).map
      (fun h => (h.outQueryKey, hGet (h.outHeaders.getD []) "Authorization"))
      = .ok (some "poolkey", none)) ∧
    ((P1.handleRequest ⟨"u", "/openai/v1/x", "POST", [], none, "", none⟩
        "openai" (some "poolkey") false ⟨200, "ok"⟩).map
      (fun h => hGet (h.outHeaders.getD []) "Authorization")
      = .ok (some ("Bearer " ++ "poolkey"))) ∧
    hGet (CF.injectHeaders "gemini" "poolkey" [("Authorization", "Bearer caller")])
      "x-goog-api-key" = some "poolkey" ∧
    hGet (CF.injectHeaders "gemini" "poolkey" [("Authorization", "Bearer caller")])
      "Authorization" = hGet [("Authorization", "Bearer caller")] "Authorization" ∧
    hGet (CF.injectHeaders "claude" "poolkey" []) "x-api-key" = some "poolkey" ∧
    hGet (CF.injectHeaders "openai" "poolkey" []) "Authorization"
      = some ("Bearer " ++ "poolkey") := by
  have hg := credential_injection "gemini" "poolkey"
    ⟨"u", "/gemini/v1beta/x", "POST", [("Authorization", "Bearer caller")], none, "", none⟩
    ⟨200, "ok"⟩ (by decide) (by decide) (by decide)
  have ho := credential_injection "openai" "poolkey"
    ⟨"u", "/openai/v1/x", "POST", [], none, "", none⟩
    ⟨200, "ok"⟩ (by decide) (by decide) (by decide)
  have hc := credential_injection "claude" "poolkey"
    ⟨"u", "/claude/v1/messages", "POST", [], none, "", none⟩
    ⟨200, "ok"⟩ (by decide) (by decide) (by decide)
  refine ⟨?_, ?_, ?_, ?_, ?_, ?_⟩
  · have h1 := hg.1 rfl
    cases hh : P1.handleRequest ⟨"u", "/gemini/v1beta/x", "POST",
        [("Authorization", "Bearer caller")], none, "", none⟩
        "gemini" (some "poolkey") false ⟨200, "ok"⟩ with
    | error er => cases (by decide : ¬ (P1.handleRequest ⟨"u", "/gemini/v1beta/x", "POST",
        [("Authorization", "Bearer caller")], none, "", none⟩
        "gemini" (some "poolkey") false ⟨200, "ok"⟩).isOk = false) (by rw [hh]; rfl)
    | ok h =>
      have := h1 h hh
      simp [hh, Except.map, this.1, this.2.1]
  · have h1 := ho.2.1 (by decide)
    cases hh : P1.handleRequest ⟨"u", "/openai/v1/x", "POST", [], none, "", none⟩
        "openai" (some "poolkey") false ⟨200, "ok"⟩ with
    | error er => cases (by decide : ¬ (P1.handleRequest
        ⟨"u", "/openai/v1/x", "POST", [], none, "", none⟩
        "openai" (some "poolkey") false ⟨200, "ok"⟩).isOk = false) (by rw [hh]; rfl)
    | ok h =>
      have := h1 h hh
      simp [hh, Except.map, this.1]
  · exact (hg.2.2.1 [("Authorization", "Bearer caller")] (by decide)).1
  · exact (hg.2.2.1 [("Authorization", "Bearer caller")] (by decide)).2
  · exact hc.2.2.2.1 [] (by decide)
  · exact ho.2.2.2.2 [] (by decide) (by decide)

end Gateway
